import Mathlib

/-!
Shallow embedding of the ShoobyBan/dashing event server core:
the SSE delivery handler `EventsHandler`, the event-ingestion handlers
`DashboardEventHandler` / `WidgetEventHandler` and `WidgetHandler` from
`server.go`, and the job registry (`Register`, `Worker.Register`,
`NewWorker`, `Worker.Start`) from the worker file.  The Broker dispatch
loop itself is not part of the sources here; where a property depends on
it, the broker is modelled from the specification and marked as such.

Go `map[string]interface{}` values are modelled as association lists of
JSON values; `json.Marshal` is modelled including its failure mode on
values it cannot serialize (channels, functions, NaN floats, ...) and its
sorted-key rendering of maps.
-/

/-- A JSON-serializable Go `interface{}` value as it can occur in an event
body.  `unsupported` stands for a Go value `encoding/json` rejects
(a channel, a function, a NaN float, ...), carrying a tag for display. -/
inductive JVal where
  | null : JVal
  | bool : Bool → JVal
  | int : Int → JVal
  | str : String → JVal
  | arr : List JVal → JVal
  | obj : List (String × JVal) → JVal
  | unsupported : String → JVal

mutual
/-- Decidable equality for `JVal` (the nested lists prevent deriving it). -/
def jvalDecEq : (a b : JVal) → Decidable (a = b)
  | .null, .null => isTrue rfl
  | .null, .bool _ => isFalse (fun h => JVal.noConfusion h)
  | .null, .int _ => isFalse (fun h => JVal.noConfusion h)
  | .null, .str _ => isFalse (fun h => JVal.noConfusion h)
  | .null, .arr _ => isFalse (fun h => JVal.noConfusion h)
  | .null, .obj _ => isFalse (fun h => JVal.noConfusion h)
  | .null, .unsupported _ => isFalse (fun h => JVal.noConfusion h)
  | .bool _, .null => isFalse (fun h => JVal.noConfusion h)
  | .bool a, .bool b =>
      match decEq a b with
      | isTrue h => isTrue (congrArg JVal.bool h)
      | isFalse h => isFalse (fun hh => h (JVal.bool.inj hh))
  | .bool _, .int _ => isFalse (fun h => JVal.noConfusion h)
  | .bool _, .str _ => isFalse (fun h => JVal.noConfusion h)
  | .bool _, .arr _ => isFalse (fun h => JVal.noConfusion h)
  | .bool _, .obj _ => isFalse (fun h => JVal.noConfusion h)
  | .bool _, .unsupported _ => isFalse (fun h => JVal.noConfusion h)
  | .int _, .null => isFalse (fun h => JVal.noConfusion h)
  | .int _, .bool _ => isFalse (fun h => JVal.noConfusion h)
  | .int a, .int b =>
      match decEq a b with
      | isTrue h => isTrue (congrArg JVal.int h)
      | isFalse h => isFalse (fun hh => h (JVal.int.inj hh))
  | .int _, .str _ => isFalse (fun h => JVal.noConfusion h)
  | .int _, .arr _ => isFalse (fun h => JVal.noConfusion h)
  | .int _, .obj _ => isFalse (fun h => JVal.noConfusion h)
  | .int _, .unsupported _ => isFalse (fun h => JVal.noConfusion h)
  | .str _, .null => isFalse (fun h => JVal.noConfusion h)
  | .str _, .bool _ => isFalse (fun h => JVal.noConfusion h)
  | .str _, .int _ => isFalse (fun h => JVal.noConfusion h)
  | .str a, .str b =>
      match decEq a b with
      | isTrue h => isTrue (congrArg JVal.str h)
      | isFalse h => isFalse (fun hh => h (JVal.str.inj hh))
  | .str _, .arr _ => isFalse (fun h => JVal.noConfusion h)
  | .str _, .obj _ => isFalse (fun h => JVal.noConfusion h)
  | .str _, .unsupported _ => isFalse (fun h => JVal.noConfusion h)
  | .arr _, .null => isFalse (fun h => JVal.noConfusion h)
  | .arr _, .bool _ => isFalse (fun h => JVal.noConfusion h)
  | .arr _, .int _ => isFalse (fun h => JVal.noConfusion h)
  | .arr _, .str _ => isFalse (fun h => JVal.noConfusion h)
  | .arr a, .arr b =>
      match jvalsDecEq a b with
      | isTrue h => isTrue (congrArg JVal.arr h)
      | isFalse h => isFalse (fun hh => h (JVal.arr.inj hh))
  | .arr _, .obj _ => isFalse (fun h => JVal.noConfusion h)
  | .arr _, .unsupported _ => isFalse (fun h => JVal.noConfusion h)
  | .obj _, .null => isFalse (fun h => JVal.noConfusion h)
  | .obj _, .bool _ => isFalse (fun h => JVal.noConfusion h)
  | .obj _, .int _ => isFalse (fun h => JVal.noConfusion h)
  | .obj _, .str _ => isFalse (fun h => JVal.noConfusion h)
  | .obj _, .arr _ => isFalse (fun h => JVal.noConfusion h)
  | .obj a, .obj b =>
      match jkvsDecEq a b with
      | isTrue h => isTrue (congrArg JVal.obj h)
      | isFalse h => isFalse (fun hh => h (JVal.obj.inj hh))
  | .obj _, .unsupported _ => isFalse (fun h => JVal.noConfusion h)
  | .unsupported _, .null => isFalse (fun h => JVal.noConfusion h)
  | .unsupported _, .bool _ => isFalse (fun h => JVal.noConfusion h)
  | .unsupported _, .int _ => isFalse (fun h => JVal.noConfusion h)
  | .unsupported _, .str _ => isFalse (fun h => JVal.noConfusion h)
  | .unsupported _, .arr _ => isFalse (fun h => JVal.noConfusion h)
  | .unsupported _, .obj _ => isFalse (fun h => JVal.noConfusion h)
  | .unsupported a, .unsupported b =>
      match decEq a b with
      | isTrue h => isTrue (congrArg JVal.unsupported h)
      | isFalse h => isFalse (fun hh => h (JVal.unsupported.inj hh))

/-- Decidable equality for lists of `JVal`. -/
def jvalsDecEq : (a b : List JVal) → Decidable (a = b)
  | [], [] => isTrue rfl
  | [], _ :: _ => isFalse (fun h => List.noConfusion h)
  | _ :: _, [] => isFalse (fun h => List.noConfusion h)
  | x :: xs, y :: ys =>
      match jvalDecEq x y with
      | isTrue h1 =>
          match jvalsDecEq xs ys with
          | isTrue h2 => isTrue (by rw [h1, h2])
          | isFalse h2 => isFalse (fun hh => h2 (List.cons.inj hh).2
          )
      | isFalse h1 => isFalse (fun hh => h1 (List.cons.inj hh).1
          )

/-- Decidable equality for key/value lists of `JVal`. -/
def jkvsDecEq : (a b : List (String × JVal)) → Decidable (a = b)
  | [], [] => isTrue rfl
  | [], _ :: _ => isFalse (fun h => List.noConfusion h)
  | _ :: _, [] => isFalse (fun h => List.noConfusion h)
  | (k1, v1) :: xs, (k2, v2) :: ys =>
      match decEq k1 k2 with
      | isTrue hk =>
          match jvalDecEq v1 v2 with
          | isTrue hv =>
              match jkvsDecEq xs ys with
              | isTrue ht => isTrue (by rw [hk, hv, ht])
              | isFalse ht => isFalse (fun hh => ht (List.cons.inj hh).2
                  )
          | isFalse hv => isFalse (fun hh => hv (congrArg Prod.snd (List.cons.inj hh).1
              ))
      | isFalse hk => isFalse (fun hh => hk (congrArg Prod.fst (List.cons.inj hh).1
          ))
end

instance : DecidableEq JVal := jvalDecEq

/-- A Go `map[string]interface{}` event body: keys are unique, order is
irrelevant to map semantics (Go serializes maps with sorted keys). -/
abbrev BodyMap := List (String × JVal)

/-- Go map assignment `m[k] = v`: overwrite the binding of `k` when present,
otherwise add it. -/
def mapSet : BodyMap → String → JVal → BodyMap
  | [], k, v => [(k, v)]
  | (k0, v0) :: rest, k, v =>
      if k0 = k then (k, v) :: rest else (k0, v0) :: mapSet rest k v

/-- Go map read `m[k]`. -/
def mapGet : BodyMap → String → Option JVal
  | [], _ => none
  | (k0, v0) :: rest, k => if k0 = k then some v0 else mapGet rest k

/-- JSON string-literal escaping as done by `encoding/json` (quotes and
backslashes; other escapes are irrelevant to the properties proved here). -/
def jsonEscape (s : String) : String :=
  String.mk (s.data.foldr
    (fun c acc =>
      if c = '\\' then '\\' :: '\\' :: acc
      else if c = '\"' then '\\' :: '\"' :: acc
      else c :: acc) [])

/-- Render a JSON string literal. -/
def strLit (s : String) : String := "\"" ++ jsonEscape s ++ "\""

/-- Lexicographic order on character lists by code point; this is the order
Go's `sort.Strings` induces on UTF-8 encoded keys (UTF-8 byte order agrees
with code-point order). -/
def charListLe : List Char → List Char → Bool
  | [], _ => true
  | _ :: _, [] => false
  | a :: as, b :: bs =>
      if a.toNat < b.toNat then true
      else if b.toNat < a.toNat then false
      else charListLe as bs

/-- String order used for JSON map-key sorting. -/
def strLeB (a b : String) : Bool := charListLe a.data b.data

/-- Insert a rendered key/value pair into a key-sorted list of rendered
pairs (`encoding/json` emits map keys in sorted order). -/
def insertPair (p : String × String) : List (String × String) → List (String × String)
  | [] => [p]
  | q :: qs => if strLeB p.1 q.1 then p :: q :: qs else q :: insertPair p qs

/-- Sort rendered key/value pairs by key. -/
def sortPairs : List (String × String) → List (String × String)
  | [] => []
  | p :: ps => insertPair p (sortPairs ps)

/-- Join rendered map entries into a JSON object body. -/
def renderObj (rs : List (String × String)) : String :=
  String.intercalate (",") (rs.map (fun p => strLit p.1 ++ ":" ++ p.2))

mutual
/-- Model of Go `json.Marshal` on a single value: `none` is a marshal
error (Go returns a non-nil `err` for unsupported values, also when they
are nested); maps render with sorted keys. -/
def jvalMarshal : JVal → Option String
  | .null => some ("null")
  | .bool b => some (if b then ("true") else ("false"))
  | .int n => some (toString n)
  | .str s => some (strLit s)
  | .arr xs => (jvalsMarshal xs).map (fun s => "[" ++ s ++ "]")
  | .obj kvs => (jkvsMarshal kvs).map (fun rs => "\x7b" ++ renderObj (sortPairs rs) ++ "\x7d")
  | .unsupported _ => none

/-- Marshal array elements in order; fail if any element fails. -/
def jvalsMarshal : List JVal → Option String
  | [] => some ("")
  | [x] => jvalMarshal x
  | x :: y :: rest =>
      match jvalMarshal x, jvalsMarshal (y :: rest) with
      | some sx, some srest => some (sx ++ "," ++ srest)
      | _, _ => none

/-- Marshal each map entry's value, keeping keys; fail if any value fails. -/
def jkvsMarshal : List (String × JVal) → Option (List (String × String))
  | [] => some []
  | (k, v) :: rest =>
      match jvalMarshal v, jkvsMarshal rest with
      | some rv, some rrest => some ((k, rv) :: rrest)
      | _, _ => none
end

/-- `json.Marshal(data)` for a `map[string]interface{}` body. -/
def bodyMarshal (b : BodyMap) : Option String := jvalMarshal (.obj b)

/-- An Event as in the repository: `type Event struct { ID string;
Body map[string]interface{}; Target string }`. -/
structure Event where
  ID : String
  Body : BodyMap
  Target : String
deriving DecidableEq

/-- Go `int32(n)`: truncation of a 64-bit integer to 32 bits, two's
complement (the literals are 2^31 and 2^32). -/
def toInt32 (n : Int) : Int := (n + 2147483648) % 4294967296 - 2147483648

example : toInt32 7 = 7 := by decide
example : toInt32 2147483648 = -2147483648 := by decide

example : bodyMarshal [("value", .int 5)] = some ("\x7b\"value\":5\x7d") := by decide
example : bodyMarshal [("b", .int 1), ("a", .int 2)] = some ("\x7b\"a\":2,\"b\":1\x7d") := by decide
example : bodyMarshal [("v", .unsupported ("NaN"))] = none := by decide

/-- A Go channel value as created by `make(chan *Event)`: identified by its
allocation (two `make` calls yield distinct channels) and carrying its
buffer capacity (`make` with no size argument gives capacity 0, i.e. an
unbuffered channel). -/
structure Chan where
  id : Nat
  cap : Nat
deriving DecidableEq

/-- `events := make(chan *Event)` in `EventsHandler` (server.go line 62):
allocate a fresh unbuffered channel, advancing the allocation counter. -/
def makeChan (fresh : Nat) : Chan × Nat := (⟨fresh, 0⟩, fresh + 1)

/-- One chunk of output the delivery handler produces on the response
stream: a write (`fmt.Fprintf(w, ...)`) or a flush (`f.Flush()`). -/
inductive Out where
  | write : String → Out
  | flush : Out
deriving DecidableEq

/-- `data["id"] = event.ID; data["updatedAt"] = int32(time.Now().Unix())`
(server.go lines 85-86) applied to the map `data := event.Body` — in Go the
assignment `data := event.Body` copies only the map reference, so these
writes go into the event's own shared body map. -/
def augmentBody (b : BodyMap) (id : String) (now : Int) : BodyMap :=
  mapSet (mapSet b ("id") (.str id)) ("updatedAt") (.int (toInt32 now))

/-- Result of one `case event := <-events` iteration of `EventsHandler`
(server.go lines 82-96): the post-state of the shared `*Event` (whose body
the handler mutated in place), the writes/flushes issued, and whether
`s.mutex` is still held on leaving the iteration. -/
structure DeliverRes where
  event : Event
  outs : List Out
  mutexHeld : Bool
deriving DecidableEq

/-- One `case event := <-events` iteration of `EventsHandler` (server.go
lines 82-96), faithful to the source:
`s.mutex.Lock()` (blocks forever — `none` — if the handler's server mutex
is already held, since `sync.RWMutex` is not reentrant);
`data := event.Body; data["id"] = event.ID;
data["updatedAt"] = int32(time.Now().Unix()); json, err := json.Marshal(data);
if err != nil { continue }` — note the `continue` skips `s.mutex.Unlock()`,
so a marshal error leaves the mutex held; otherwise `s.mutex.Unlock()`,
an `event: <target>` line when `event.Target != ""`, the `data:` line, and
`f.Flush()`. -/
def deliverStep (mutexHeld : Bool) (e : Event) (now : Int) : Option DeliverRes :=
  if mutexHeld then none
  else
    match bodyMarshal (augmentBody e.Body e.ID now) with
    | none => some ⟨{ e with Body := augmentBody e.Body e.ID now }, [], true⟩
    | some j =>
        some ⟨{ e with Body := augmentBody e.Body e.ID now },
          (if e.Target = "" then []
           else [.write ("event: " ++ e.Target ++ "\n")])
            ++ [.write ("data: " ++ j ++ "\n\n"), .flush],
          false⟩

/-- What the handler's `select` can wake up on: an Event arriving on the
subscription channel (paired with the wall-clock time `time.Now().Unix()`
observed while delivering it), or the close notification. -/
inductive HIn where
  | ev : Event → Int → HIn
  | close : HIn

/-- The `for { select { ... } }` loop of `EventsHandler` (server.go lines
80-100) run over a finite schedule of wake-ups.  Returns the writes issued
and whether the handler exited (`return` on the close notification).  The
result is `(_, false)` when the schedule ends with the handler still
blocked — either waiting in `select` or deadlocked on `s.mutex.Lock()`. -/
def eventsLoop (mutexHeld : Bool) : List HIn → List Out × Bool
  | [] => ([], false)
  | .close :: _ => ([], true)
  | .ev e now :: rest =>
      match deliverStep mutexHeld e now with
      | none => ([], false)
      | some r =>
          let (outs, exited) := eventsLoop r.mutexHeld rest
          (r.outs ++ outs, exited)

/-- A registration request sent to the broker: `s.broker.newClients <- events`
or `s.broker.defunctClients <- events` (server.go lines 66 and 71). -/
inductive BReq where
  | subscribe : Chan → BReq
  | unsubscribe : Chan → BReq
deriving DecidableEq

/-- A complete run of `EventsHandler` past the flusher/close-notifier
checks: the channel it allocated, the advanced allocation counter, the
broker requests it sent in order, the stream output, and whether it
exited. -/
structure HandlerRun where
  chan : Chan
  nextFresh : Nat
  reqs : List BReq
  outs : List Out
  exited : Bool
deriving DecidableEq

/-- `EventsHandler` (server.go lines 60-101) for a connection that reached
the streaming state: create a fresh unbuffered channel, send it on
`newClients`, run the select loop, and — via the deferred function — send
the same channel on `defunctClients` when and only when the handler
exits. -/
def eventsHandler (fresh : Nat) (inputs : List HIn) : HandlerRun :=
  { chan := (makeChan fresh).1
    nextFresh := (makeChan fresh).2
    reqs := [.subscribe (makeChan fresh).1]
      ++ (if (eventsLoop false inputs).2 then [.unsubscribe (makeChan fresh).1] else [])
    outs := (eventsLoop false inputs).1
    exited := (eventsLoop false inputs).2 }

/-- An HTTP response as produced by the handlers in server.go. -/
inductive Resp where
  | badRequest
  | noContent
  | notFound
  | okHtml
deriving DecidableEq

/-- `DashboardEventHandler` (server.go lines 128-143): decode the JSON body
(`decoded = none` models a `json.Decode` error), on failure respond 400 and
publish nothing; on success send `&Event{param(r, "id"), data, "dashboards"}`
on the broker's events channel and respond 204 with no body.  The second
component lists the Events published. -/
def DashboardEventHandler (idParam : String) (decoded : Option BodyMap) :
    Resp × List Event :=
  match decoded with
  | none => (.badRequest, [])
  | some data => (.noContent, [⟨idParam, data, "dashboards"⟩])

/-- `WidgetEventHandler` (server.go lines 165-181): same as the dashboard
variant but the published Event is `&Event{param(r, "id"), data, ""}`. -/
def WidgetEventHandler (idParam : String) (decoded : Option BodyMap) :
    Resp × List Event :=
  match decoded with
  | none => (.badRequest, [])
  | some data => (.noContent, [⟨idParam, data, ""⟩])

/-- Go string slicing `s[lo:hi]` with `int` indices: panics (`none`) unless
`0 ≤ lo ≤ hi ≤ len(s)`. -/
def goStringSlice (s : String) (lo hi : Int) : Option String :=
  if 0 ≤ lo ∧ lo ≤ hi ∧ hi ≤ (s.length : Int)
  then some ((s.drop lo.toNat).take (hi - lo).toNat)
  else none

/-- Outcome of `WidgetHandler`: either a runtime panic (no HTTP response is
written by the handler) or a normal HTTP response. -/
inductive WidgetOutcome where
  | panicSliceBounds
  | httpResponse : Resp → WidgetOutcome
deriving DecidableEq

/-- `WidgetHandler` (server.go lines 146-162): unconditionally evaluates
`widget = widget[0 : len(widget)-5]`, then parses the widget template
(`templateOk` models whether `gerb.ParseFile` succeeds, which is external
file-system behavior) and responds 404 or renders HTML. -/
def WidgetHandler (widget : String) (templateOk : Bool) : WidgetOutcome :=
  match goStringSlice widget 0 ((widget.length : Int) - 5) with
  | none => .panicSliceBounds
  | some _trimmed => .httpResponse (if templateOk then .okHtml else .notFound)

/-!
Job registry (worker file).  `Job` is an interface, so a Go `Job` value is
either `nil` or a concrete implementation; we model it as `Option α` with
`none` for `nil`, over an arbitrary type `α` of implementations.  The
process-wide `var jobs []Job` is carried explicitly as `JobState`.  Go's
`append([]Job(nil), jobs...)` in `NewWorker` allocates a fresh backing
array holding the same elements, which is what justifies the value
semantics of `List` here: later appends to either list never write into
the other's storage.
-/

/-- The process-wide mutable `var jobs []Job`. -/
structure JobState (α : Type) where
  jobs : List (Option α)
deriving DecidableEq

/-- The package-level `Register` function: `panic("Can't register nil job")`
on `nil` (modelled as `none`), otherwise `jobs = append(jobs, j)`. -/
def Register {α : Type} (s : JobState α) (j : Option α) : Option (JobState α) :=
  match j with
  | none => none
  | some _ => some ⟨s.jobs ++ [j]⟩

/-- A `Worker`: broker and config references are irrelevant to the claims
proved here; `registry` is its per-instance job list. -/
structure Worker (α : Type) where
  registry : List (Option α)
deriving DecidableEq

/-- `NewWorker`: `registry: append([]Job(nil), jobs...)` — a copy of the
process-wide default job list at construction time. -/
def NewWorker {α : Type} (s : JobState α) : Worker α :=
  ⟨s.jobs⟩

/-- `Worker.Register`: `panic("Can't register nil job")` on `nil`, otherwise
`w.registry = append(w.registry, j)`; it never touches the package-level
`jobs` variable. -/
def Worker.Register {α : Type} (w : Worker α) (j : Option α) : Option (Worker α) :=
  match j with
  | none => none
  | some _ => some ⟨w.registry ++ [j]⟩

/-- A sequence of `Worker.Register` calls, with the process-wide `jobs`
variable threaded alongside so its (non-)mutation is observable; `none`
models a panic part-way through. -/
def registerSeq {α : Type} (st : JobState α × Worker α) :
    List (Option α) → Option (JobState α × Worker α)
  | [] => some st
  | j :: js =>
      match st.2.Register j with
      | none => none
      | some w' => registerSeq (st.1, w') js

/-!
Broker.  The broker's own dispatch loop is not among the sources here
(server.go and the worker file only use its `newClients`, `defunctClients`
and `events` channels), so publishing is modelled from the specification.
-/

/-- The broker's registry of currently subscribed delivery channels.
Modelled from the spec: the spec's Broker registry is "a set of active
Subscriptions" with "no duplicate entries". -/
structure Broker where
  registry : List Chan

/-- Modelled from the spec: the Broker dispatch loop is not under the
sources here; per the spec, `Publish(Event)` "delivers the Event to every
currently registered Subscription", and the Broker "does not filter — every
subscriber receives every Event".  A publish therefore produces one
delivery `(c, e)` per registered channel `c`, and nothing else. -/
def Broker.publish (b : Broker) (e : Event) : List (Chan × Event) :=
  b.registry.map (fun c => (c, e))

/-!  Helper lemmas shared by several claim theorems. -/

/-- Go map semantics of `mapSet`: reading key `k'` after writing key `k`
yields the written value exactly when `k' = k`, and the old value
otherwise. -/
theorem mapGet_mapSet (b : BodyMap) (k k' : String) (v : JVal) :
    mapGet (mapSet b k v) k' = if k = k' then some v else mapGet b k' := by
  induction b with
  | nil => simp [mapSet, mapGet]
  | cons p rest ih =>
      obtain ⟨k0, v0⟩ := p
      by_cases h0 : k0 = k
      · subst h0
        by_cases h1 : k0 = k'
        · subst h1; simp [mapSet, mapGet]
        · simp [mapSet, mapGet, h1]
      · by_cases h1 : k0 = k'
        · subst h1
          have hk : ¬ k = k0 := fun hh => h0 hh.symm
          simp [mapSet, mapGet, h0, hk]
        · simp [mapSet, mapGet, h0, h1, ih]

/-- Whenever one handler-loop iteration runs to completion (the mutex was
free), the shared `*Event` leaves the iteration with its body replaced by
the augmented map — both on the marshal-success and the marshal-failure
path. -/
theorem deliverStep_event_eq (e : Event) (now : Int) (r : DeliverRes)
    (h : deliverStep false e now = some r) :
    r.event = { e with Body := augmentBody e.Body e.ID now } := by
  unfold deliverStep at h
  cases hm : bodyMarshal (augmentBody e.Body e.ID now) with
  | none =>
      rw [hm] at h
      simp only [Bool.false_eq_true, if_false, Option.some.injEq] at h
      rw [← h]
  | some j =>
      rw [hm] at h
      simp only [Bool.false_eq_true, if_false, Option.some.injEq] at h
      rw [← h]

/-- C3 counterexample: for the published Event with id `"x"` and body
`{"value": 5}`, the delivery handler iteration leaves the shared body
different from the body the producer published — the claim that the body
is never mutated after publish is false on this code. -/
theorem c3_counterexample :
    (deliverStep false ⟨"x", [("value", JVal.int 5)], ""⟩ 7).map (fun r => r.event.Body)
      ≠ some [("value", JVal.int 5)] := by decide

/-- C3 (amended): the delivery handler does mutate the published body in
place, but only at the server-assigned keys: after an iteration the shared
body is exactly the augmented map, and on every key other than `"id"` and
`"updatedAt"` it agrees with the body the producer published. -/
theorem c3_body_mutation_scope (e : Event) (now : Int) (r : DeliverRes)
    (h : deliverStep false e now = some r) (k : String)
    (hk1 : k ≠ "id") (hk2 : k ≠ "updatedAt") :
    r.event.Body = augmentBody e.Body e.ID now ∧
    mapGet r.event.Body k = mapGet e.Body k := by
  have he := deliverStep_event_eq e now r h
  have hb : r.event.Body = augmentBody e.Body e.ID now := by rw [he]
  refine ⟨hb, ?_⟩
  rw [hb]
  unfold augmentBody
  rw [mapGet_mapSet, if_neg (fun hh => hk2 hh.symm),
    mapGet_mapSet, if_neg (fun hh => hk1 hh.symm)]

/-- Witness for C3 (amended) at the event `id = "x"`, body `{"value": 5}`,
time 7, key `"value"`. -/
theorem c3_body_mutation_scope_witness :
    ([("value", JVal.int 5), ("id", JVal.str ("x")), ("updatedAt", JVal.int 7)] : BodyMap)
        = augmentBody [("value", JVal.int 5)] "x" 7 ∧
    mapGet [("value", JVal.int 5), ("id", JVal.str ("x")), ("updatedAt", JVal.int 7)] "value"
        = mapGet [("value", JVal.int 5)] "value" :=
  c3_body_mutation_scope ⟨"x", [("value", JVal.int 5)], ""⟩ 7
    ⟨⟨"x", [("value", JVal.int 5), ("id", JVal.str ("x")), ("updatedAt", JVal.int 7)], ""⟩,
      [.write ("data: \x7b\"id\":\"x\",\"updatedAt\":7,\"value\":5\x7d\n\n"), .flush], false⟩
    (by decide) "value" (by decide) (by decide)

/-- C4: the body serialized into every delivered frame carries
`"id" = event.ID` and an integer `"updatedAt" = int32(time.Now().Unix())`,
overwriting any pre-existing values under those keys. -/
theorem c4_injected_fields (e : Event) (now : Int) (r : DeliverRes)
    (h : deliverStep false e now = some r) :
    mapGet (r.event.Body) "id" = some (JVal.str e.ID) ∧
    mapGet (r.event.Body) "updatedAt" = some (JVal.int (toInt32 now)) := by
  have he := deliverStep_event_eq e now r h
  have hb : r.event.Body = augmentBody e.Body e.ID now := by rw [he]
  rw [hb]
  unfold augmentBody
  constructor
  · rw [mapGet_mapSet, if_neg (by decide : ¬ (("updatedAt" : String) = "id")),
      mapGet_mapSet, if_pos rfl]
  · rw [mapGet_mapSet, if_pos rfl]

/-- Witness for C4 at an event whose body already held different values
under `"id"` and `"updatedAt"`. -/
theorem c4_injected_fields_witness :
    mapGet [("id", JVal.str ("x")), ("updatedAt", JVal.int 9), ("value", JVal.int 5)] "id"
      = some (JVal.str ("x")) ∧
    mapGet [("id", JVal.str ("x")), ("updatedAt", JVal.int 9), ("value", JVal.int 5)] "updatedAt"
      = some (JVal.int (toInt32 9)) :=
  c4_injected_fields
    ⟨"x", [("id", JVal.str ("old")), ("updatedAt", JVal.bool true), ("value", JVal.int 5)], ""⟩ 9
    ⟨⟨"x", [("id", JVal.str ("x")), ("updatedAt", JVal.int 9), ("value", JVal.int 5)], ""⟩,
     [.write ("data: \x7b\"id\":\"x\",\"updatedAt\":9,\"value\":5\x7d\n\n"), .flush], false⟩
    (by decide)

/-- C5: when marshaling succeeds, a delivery writes an
`event: <target>` line exactly when the target is non-empty, then the
`data: <json>` line terminated by a blank line, then flushes. -/
theorem c5_sse_frame_format (e : Event) (now : Int) (j : String)
    (h : bodyMarshal (augmentBody e.Body e.ID now) = some j) :
    (deliverStep false e now).map DeliverRes.outs =
      some ((if e.Target = "" then []
             else [Out.write ("event: " ++ e.Target ++ "\n")])
        ++ [Out.write ("data: " ++ j ++ "\n\n"), Out.flush]) := by
  unfold deliverStep
  rw [h]
  simp

/-- Witness for C5 at a `target = "dashboards"` event. -/
theorem c5_sse_frame_format_witness :
    (deliverStep false ⟨"w1", [("value", JVal.int 5)], "dashboards"⟩ 3).map DeliverRes.outs =
      some ((if ("dashboards" : String) = "" then []
             else [Out.write ("event: " ++ "dashboards" ++ "\n")])
        ++ [Out.write ("data: " ++ "\x7b\"id\":\"w1\",\"updatedAt\":3,\"value\":5\x7d" ++ "\n\n"),
            Out.flush]) :=
  c5_sse_frame_format ⟨"w1", [("value", JVal.int 5)], "dashboards"⟩ 3
    "\x7b\"id\":\"w1\",\"updatedAt\":3,\"value\":5\x7d" (by decide)

/-- Number of copies of Event `e` among the deliveries addressed to
channel `c`. -/
def deliveryCount (c : Chan) (e : Event) : List (Chan × Event) → Nat
  | [] => 0
  | d :: ds => (if d = (c, e) then 1 else 0) + deliveryCount c e ds

/-- C1: a single broker publish delivers exactly one copy of the Event to
each of the registered subscription channels and zero copies to any channel
not registered when the publish is accepted; every delivery carries the
published Event itself.  (Broker modelled from the spec: its dispatch loop
is not among the sources; the registry is duplicate-free per the spec.) -/
theorem c1_publish_fanout (b : Broker) (hnd : b.registry.Nodup) (e : Event) (c : Chan) :
    (deliveryCount c e (b.publish e) = if c ∈ b.registry then 1 else 0) ∧
    ∀ d ∈ b.publish e, d.2 = e := by
  constructor
  · show deliveryCount c e (b.registry.map fun c0 => (c0, e)) = _
    have key : ∀ l : List Chan, l.Nodup →
        deliveryCount c e (l.map fun c0 => (c0, e)) = if c ∈ l then 1 else 0 := by
      intro l
      induction l with
      | nil => intro _; simp [deliveryCount]
      | cons a tl ih =>
          intro hnd2
          have hna : a ∉ tl := (List.nodup_cons.mp hnd2).1
          have ihtl := ih (List.nodup_cons.mp hnd2).2
          simp only [List.map_cons, deliveryCount]
          by_cases hca : c = a
          · subst hca
            rw [if_pos rfl, ihtl, if_neg hna, if_pos (List.mem_cons_self c tl)]
          · rw [if_neg (fun hh => hca ((congrArg Prod.fst hh).symm : c = a)), ihtl]
            by_cases hc : c ∈ tl
            · rw [if_pos hc, if_pos (List.mem_cons_of_mem a hc)]
            · rw [if_neg hc, if_neg (fun hmem => (List.mem_cons.mp hmem).elim hca hc)]
    exact key b.registry hnd
  · intro d hd
    obtain ⟨a, _, hae⟩ := List.mem_map.mp hd
    rw [← hae]

/-- Witness for C1 with two registered channels, counted at the first. -/
theorem c1_publish_fanout_witness :
    (deliveryCount ⟨0, 0⟩ ⟨"w1", [("value", JVal.int 1)], ""⟩
        (Broker.publish ⟨[⟨0, 0⟩, ⟨1, 0⟩]⟩ ⟨"w1", [("value", JVal.int 1)], ""⟩)
      = if (⟨0, 0⟩ : Chan) ∈ (Broker.mk [⟨0, 0⟩, ⟨1, 0⟩]).registry then 1 else 0) ∧
    ∀ d ∈ Broker.publish ⟨[⟨0, 0⟩, ⟨1, 0⟩]⟩ ⟨"w1", [("value", JVal.int 1)], ""⟩,
      d.2 = ⟨"w1", [("value", JVal.int 1)], ""⟩ :=
  c1_publish_fanout ⟨[⟨0, 0⟩, ⟨1, 0⟩]⟩ (by decide) ⟨"w1", [("value", JVal.int 1)], ""⟩ ⟨0, 0⟩

/-- C2 (code bug): when marshaling an outgoing event fails, the iteration
writes nothing — but it returns with the server mutex still held (the
`continue` skips `s.mutex.Unlock()`), so the handler deadlocks on the next
event instead of continuing: with a failing event followed by a good event
and a close notification the loop delivers nothing and never exits, while
the same schedule without the failing event delivers the good event and
exits. -/
theorem c2_marshal_failure_leaves_mutex_locked :
    (deliverStep false ⟨"w1", [("value", JVal.unsupported ("NaN"))], ""⟩ 5
      = some ⟨⟨"w1", augmentBody [("value", JVal.unsupported ("NaN"))] "w1" 5, ""⟩, [], true⟩)
    ∧ (eventsLoop false
        [.ev ⟨"w1", [("value", JVal.unsupported ("NaN"))], ""⟩ 5,
         .ev ⟨"w2", [("value", JVal.int 1)], ""⟩ 6, .close]
        = ([], false))
    ∧ (eventsLoop false [.ev ⟨"w2", [("value", JVal.int 1)], ""⟩ 6, .close]
        = ([.write ("data: \x7b\"id\":\"w2\",\"updatedAt\":6,\"value\":1\x7d\n\n"), .flush],
           true)) := by
  exact ⟨by decide, by decide, by decide⟩

/-- C6: a malformed ingestion body yields a 400 response and publishes
nothing; a decoded body yields a 204 response with no body and publishes
exactly one Event, with target `"dashboards"` on the dashboard endpoint and
empty target on the widget endpoint, id taken from the path parameter. -/
theorem c6_ingestion_handlers (idp : String) (d : BodyMap) :
    DashboardEventHandler idp none = (Resp.badRequest, []) ∧
    WidgetEventHandler idp none = (Resp.badRequest, []) ∧
    DashboardEventHandler idp (some d) = (Resp.noContent, [⟨idp, d, "dashboards"⟩]) ∧
    WidgetEventHandler idp (some d) = (Resp.noContent, [⟨idp, d, ""⟩]) :=
  ⟨rfl, rfl, rfl, rfl⟩

/-- C7: a handler that reached streaming allocated a fresh unbuffered
channel (capacity 0, identity given by the allocation counter), its broker
requests are exactly one subscribe followed — on every completed exit —
by exactly one unsubscribe for that same channel, and handlers started from
different allocations never share a channel. -/
theorem c7_subscription_lifecycle (fresh : Nat) (inputs : List HIn)
    (h : (eventsHandler fresh inputs).exited = true) :
    (eventsHandler fresh inputs).chan.cap = 0 ∧
    (eventsHandler fresh inputs).chan.id = fresh ∧
    (eventsHandler fresh inputs).reqs =
      [.subscribe (eventsHandler fresh inputs).chan,
       .unsubscribe (eventsHandler fresh inputs).chan] ∧
    (eventsHandler fresh inputs).reqs.count
        (.unsubscribe (eventsHandler fresh inputs).chan) = 1 ∧
    ∀ g inputs2, g ≠ fresh →
      (eventsHandler g inputs2).chan ≠ (eventsHandler fresh inputs).chan := by
  have hex : (eventsLoop false inputs).2 = true := h
  have hreqs : (eventsHandler fresh inputs).reqs =
      [.subscribe (eventsHandler fresh inputs).chan,
       .unsubscribe (eventsHandler fresh inputs).chan] := by
    show [BReq.subscribe (makeChan fresh).1]
        ++ (if (eventsLoop false inputs).2 then [BReq.unsubscribe (makeChan fresh).1] else [])
      = _
    rw [hex]
    rfl
  refine ⟨rfl, rfl, hreqs, ?_, ?_⟩
  · rw [hreqs]
    simp [List.count_cons]
  · intro g inputs2 hg heq
    exact hg (congrArg Chan.id heq)

/-- Witness for C7: a connection that immediately receives the close
notification. -/
theorem c7_subscription_lifecycle_witness :
    (eventsHandler 0 [HIn.close]).chan.cap = 0 ∧
    (eventsHandler 0 [HIn.close]).chan.id = 0 ∧
    (eventsHandler 0 [HIn.close]).reqs =
      [.subscribe (eventsHandler 0 [HIn.close]).chan,
       .unsubscribe (eventsHandler 0 [HIn.close]).chan] ∧
    (eventsHandler 0 [HIn.close]).reqs.count
        (.unsubscribe (eventsHandler 0 [HIn.close]).chan) = 1 ∧
    ∀ g inputs2, g ≠ 0 →
      (eventsHandler g inputs2).chan ≠ (eventsHandler 0 [HIn.close]).chan :=
  c7_subscription_lifecycle 0 [HIn.close] rfl

/-- C8: `NewWorker` starts from a copy of the process-wide default job
list, and any sequence of `Worker.Register` calls grows only the
per-Worker registry: the process-wide list is unchanged and the final
registry is the initial copy followed by the newly registered jobs. -/
theorem c8_worker_registry_isolated {α : Type} (s : JobState α) (js : List (Option α))
    (res : JobState α × Worker α)
    (h : registerSeq (s, NewWorker s) js = some res) :
    (NewWorker s).registry = s.jobs ∧ res.1 = s ∧ res.2.registry = s.jobs ++ js := by
  have key : ∀ (l : List (Option α)) (w : Worker α) (r : JobState α × Worker α),
      registerSeq (s, w) l = some r → r.1 = s ∧ r.2.registry = w.registry ++ l := by
    intro l
    induction l with
    | nil =>
        intro w r hr
        simp only [registerSeq, Option.some.injEq] at hr
        rw [← hr]
        exact ⟨rfl, by simp⟩
    | cons j tl ih =>
        intro w r hr
        simp only [registerSeq] at hr
        cases j with
        | none => simp [Worker.Register] at hr
        | some a =>
            simp only [Worker.Register] at hr
            have hr' := ih ⟨w.registry ++ [some a]⟩ r hr
            refine ⟨hr'.1, ?_⟩
            rw [hr'.2]
            simp
    
  have hk := key js (NewWorker s) res h
  exact ⟨rfl, hk.1, hk.2⟩

/-- Witness for C8: global list `[1]`, then one instance registration. -/
theorem c8_worker_registry_isolated_witness :
    (NewWorker (⟨[some 1]⟩ : JobState Nat)).registry = [some 1] ∧
    ((⟨[some 1]⟩, ⟨[some 1, some 2]⟩) : JobState Nat × Worker Nat).1 = ⟨[some 1]⟩ ∧
    ((⟨[some 1]⟩, ⟨[some 1, some 2]⟩) : JobState Nat × Worker Nat).2.registry
      = [some 1] ++ [some 2] :=
  c8_worker_registry_isolated ⟨[some 1]⟩ [some 2] (⟨[some 1]⟩, ⟨[some 1, some 2]⟩) (by decide)

/-- C9: registering a nil Job panics through both the package-level
function and the per-Worker method, and registering a non-nil Job appends
it to the corresponding registry without failing. -/
theorem c9_nil_registration_panics {α : Type} (s : JobState α) (w : Worker α) (j : α) :
    Register s none = none ∧
    Worker.Register w none = none ∧
    Register s (some j) = some ⟨s.jobs ++ [some j]⟩ ∧
    Worker.Register w (some j) = some ⟨w.registry ++ [some j]⟩ :=
  ⟨rfl, rfl, rfl, rfl⟩

/-- C10: any widget path parameter shorter than five characters makes
`WidgetHandler` panic on `widget[0 : len(widget)-5]` instead of returning
an HTTP error response. -/
theorem c10_widget_handler_panics (widget : String) (templateOk : Bool)
    (h : widget.length < 5) :
    WidgetHandler widget templateOk = WidgetOutcome.panicSliceBounds := by
  have hneg : ¬ ((0 : Int) ≤ (widget.length : Int) - 5) := by omega
  unfold WidgetHandler goStringSlice
  rw [if_neg (fun hc => hneg hc.2.1)]

/-- Witness for C10 at the empty widget parameter. -/
theorem c10_widget_handler_panics_witness :
    WidgetHandler ("") true = WidgetOutcome.panicSliceBounds :=
  c10_widget_handler_panics ("") true (by decide)
